import Mathlib

/-
Verification of the user-management CRUD API (Express + SQLite).

Shallow embedding of `controllers/userController.js` and the SQLite store
declared in `database/database.js`.  Request-body values are modelled by
`JSValue` (the JSON fragment relevant here); the SQLite `users` and
`managers` tables are modelled by lists of rows, and each SQL statement is
translated to an explicit function on the store, including the `UNIQUE` and
`NOT NULL` constraints of the `users` table.  A JavaScript exception that
escapes a handler (e.g. calling `.replace` on a non-string) is modelled by
`Except.error ()`; an error reported by the sqlite3 driver to a callback is
modelled in-line as the 500 response the handler sends.
-/

namespace UserApi

/-- Decidable equality for `Except`, so handler results can be compared by
`decide` on concrete inputs. -/
instance {ε α : Type} [DecidableEq ε] [DecidableEq α] : DecidableEq (Except ε α) := fun a b =>
  match a, b with
  | .error e, .error f =>
    if h : e = f then isTrue (congrArg Except.error h)
    else isFalse (fun hc => h (Except.error.inj hc))
  | .ok x, .ok y =>
    if h : x = y then isTrue (congrArg Except.ok h)
    else isFalse (fun hc => h (Except.ok.inj hc))
  | .error _, .ok _ => isFalse (fun hc => Except.noConfusion hc)
  | .ok _, .error _ => isFalse (fun hc => Except.noConfusion hc)

/-- A JSON value as delivered by `body-parser` (the fragment exercised by the
API: strings, numbers, booleans and null). -/
inductive JSValue where
  | vStr (s : String)
  | vNum (n : Int)
  | vBool (b : Bool)
  | vNull
deriving DecidableEq

/-- JavaScript truthiness of a `JSValue`. -/
def jsTruthy : JSValue → Bool
  | .vStr s => s != ""
  | .vNum n => n != 0
  | .vBool b => b
  | .vNull => false

/-- JavaScript truthiness of an optional property. A missing property is
`undefined`, which is falsy. -/
def jsTruthyOpt : Option JSValue → Bool
  | some v => jsTruthy v
  | none => false

/-- `typeof v === 'string'`. -/
def isStringVal : JSValue → Bool
  | .vStr _ => true
  | _ => false

/-- The underlying string of a `vStr`; only used under an `isStringVal`
guard, mirroring code that is only reached after a `typeof` check. -/
def strVal : JSValue → String
  | .vStr s => s
  | _ => ""

/-- How a value is rendered inside a JS template literal (used for the
`Manager with ID ${...}` message). -/
def jsDisplay : JSValue → String
  | .vStr s => s
  | .vNum n => toString n
  | .vBool b => if b then "true" else "false"
  | .vNull => "null"

/-- SQLite TEXT-affinity conversion applied when a bound parameter is stored
in or compared against a TEXT column: strings stay as they are, numbers and
booleans (bound as integers by the sqlite3 driver) become their decimal
text, and `null` stays NULL (`none`), which violates the `NOT NULL`
constraints of the `users` table when stored. -/
def textAffinity : JSValue → Option String
  | .vStr s => some s
  | .vNum n => some (toString n)
  | .vBool b => some (if b then "1" else "0")
  | .vNull => none

/-- Whitespace as trimmed by `String.prototype.trim` (ASCII fragment). -/
def isJsWhitespace (c : Char) : Bool :=
  c == ' ' || c == '\t' || c == '\n' || c == '\r' || c == '\x0b' || c == '\x0c'

/-- `s.trim()`. -/
def jsTrim (s : String) : String :=
  String.mk (((s.data.dropWhile isJsWhitespace).reverse.dropWhile isJsWhitespace).reverse)

/-- `s.replace(/\D/g, '')`: keep only the ASCII digits. -/
def stripNonDigits (s : String) : String :=
  String.mk (s.data.filter Char.isDigit)

/-- `s.slice(-10)`: the last 10 characters (the whole string if shorter). -/
def sliceLast10 (s : String) : String :=
  String.mk (s.data.drop (s.data.length - 10))

/-- The mobile-number normalization used throughout the controller:
`mob_num.replace(/\D/g, '').slice(-10)`. -/
def normalizeMob (s : String) : String :=
  sliceLast10 (stripNonDigits s)

/-- `s.toUpperCase()` (ASCII fragment, which is all the PAN pattern can
accept). -/
def jsToUpper (s : String) : String :=
  String.mk (s.data.map Char.toUpper)

/-- `col LIKE '%<pat>'` where `pat` contains no wildcard: `pat` is a suffix
of the column value. -/
def likeSuffix (pat s : String) : Bool :=
  pat.data.isSuffixOf s.data

def isUpperAlpha (c : Char) : Bool :=
  'A' ≤ c && c ≤ 'Z'

/-- `/^[A-Z]{5}[0-9]{4}[A-Z]{1}$/.test s`. -/
def panTest (s : String) : Bool :=
  let cs := s.data
  cs.length == 10 && (cs.take 5).all isUpperAlpha
    && ((cs.drop 5).take 4).all Char.isDigit && (cs.drop 9).all isUpperAlpha

/-- A row of the `managers` table (`database/database.js` lines 34-39). -/
structure ManagerRow where
  manager_id : String
  manager_name : String
  is_active : Bool
deriving DecidableEq

/-- A row of the `users` table (`database/database.js` lines 50-61). -/
structure UserRow where
  user_id : String
  full_name : String
  mob_num : String
  pan_num : String
  manager_id : String
  created_at : String
  updated_at : String
  is_active : Bool
deriving DecidableEq

/-- The SQLite database: the two tables, rows in insertion (rowid) order. -/
structure Store where
  users : List UserRow
  managers : List ManagerRow
deriving DecidableEq

/-- `r` can be inserted next to `rows` without violating the PRIMARY KEY or
the `UNIQUE` constraints on `mob_num` and `pan_num`. -/
def noConflict (r : UserRow) (rows : List UserRow) : Bool :=
  rows.all (fun o => o.user_id != r.user_id && o.mob_num != r.mob_num && o.pan_num != r.pan_num)

/-- The table satisfies its PRIMARY KEY / UNIQUE constraints. -/
def usersUnique : List UserRow → Bool
  | [] => true
  | r :: rs => noConflict r rs && usersUnique rs

/-- `INSERT INTO users ... VALUES (...)`: fails (constraint violation
reported to the driver callback) when the new row collides with an existing
one on `user_id`, `mob_num` or `pan_num`. -/
def insertUser (s : Store) (r : UserRow) : Except Unit Store :=
  if noConflict r s.users then .ok { s with users := s.users ++ [r] } else .error ()

/-- `SELECT is_active FROM managers WHERE manager_id = ?` with a bound
request value; also yields the TEXT-affinity image of the parameter, which
is what an UPDATE/INSERT would store. -/
def findManagerVal (s : Store) (v : JSValue) : Option (String × ManagerRow) :=
  match textAffinity v with
  | none => none
  | some m => (s.managers.find? (fun r => r.manager_id == m)).map (fun r => (m, r))

/-- The manager lookup made by the controller before any reassignment:
true when a row exists and its `is_active` is truthy. -/
def managerActive (s : Store) (m : String) : Bool :=
  match s.managers.find? (fun r => r.manager_id == m) with
  | some r => r.is_active
  | none => false

/-- Result object of `validateUser` / `validateUpdate`. -/
inductive VRes where
  | invalid (message : String)
  | valid (mob_num pan_num : String)
deriving DecidableEq

/-- `validateUser` (controllers/userController.js lines 23-42).  The
`full_name` test checks falsiness and `typeof` before touching the string;
`mob_num.replace` and `pan_num.toUpperCase` throw a TypeError (modelled as
`.error ()`) when the value is not a string. -/
def validateUser (full_name mob_num pan_num : JSValue) : Except Unit VRes :=
  if !jsTruthy full_name || !isStringVal full_name || jsTrim (strVal full_name) == "" then
    .ok (.invalid "Full name must not be empty.")
  else
    match mob_num with
    | .vStr mn =>
      let formattedMobNum := normalizeMob mn
      if formattedMobNum.length != 10 then
        .ok (.invalid "Mobile number must be a valid 10-digit number.")
      else
        match pan_num with
        | .vStr pn =>
          let formattedPanNum := jsToUpper pn
          if !panTest formattedPanNum then
            .ok (.invalid "PAN number is not a valid format.")
          else
            .ok (.valid formattedMobNum formattedPanNum)
        | _ => .error ()
    | _ => .error ()

/-- Result object of `validateUpdate`. -/
inductive URes where
  | invalid (message : String)
  | valid (validatedData : List (String × JSValue))
deriving DecidableEq

def validKeys : List String := ["full_name", "mob_num", "pan_num", "manager_id"]

/-- The `for (const key in updateData)` loop of `validateUpdate`
(controllers/userController.js lines 49-87), accumulating `validatedData`
in iteration order.  `full_name` is guarded by a `typeof` check (no throw);
`mob_num.replace` / `pan_num.toUpperCase` throw on non-strings;
`manager_id` is copied through without any check. -/
def validateUpdateAux (validatedData : List (String × JSValue)) :
    List (String × JSValue) → Except Unit URes
  | [] =>
    if validatedData.length == 0 then
      .ok (.invalid "No valid fields provided for update.")
    else
      .ok (.valid validatedData)
  | (key, v) :: rest =>
    if !validKeys.contains key then
      .ok (.invalid ("Invalid key for update: " ++ key ++ "."))
    else if key == "full_name" then
      if !isStringVal v || jsTrim (strVal v) == "" then
        .ok (.invalid "Full name must not be empty.")
      else
        validateUpdateAux (validatedData ++ [("full_name", v)]) rest
    else if key == "mob_num" then
      match v with
      | .vStr mn =>
        let formattedMobNum := normalizeMob mn
        if formattedMobNum.length != 10 then
          .ok (.invalid "Mobile number must be a valid 10-digit number.")
        else
          validateUpdateAux (validatedData ++ [("mob_num", .vStr formattedMobNum)]) rest
      | _ => .error ()
    else if key == "pan_num" then
      match v with
      | .vStr pn =>
        let formattedPanNum := jsToUpper pn
        if !panTest formattedPanNum then
          .ok (.invalid "PAN number is not a valid format.")
        else
          validateUpdateAux (validatedData ++ [("pan_num", .vStr formattedPanNum)]) rest
      | _ => .error ()
    else
      validateUpdateAux (validatedData ++ [("manager_id", v)]) rest

/-- `validateUpdate` (controllers/userController.js lines 49-87). -/
def validateUpdate (updateData : List (String × JSValue)) : Except Unit URes :=
  validateUpdateAux [] updateData

/-- The JSON responses the controller sends.  Each constructor records the
status code and message of the corresponding `res.status(...).json(...)`
call:
* `created uid`    — 201 `User created successfully.` plus `user_id`;
* `okUsers rows`   — 200 with the selected rows;
* `okMessage m`    — 200 with the literal message `m`;
* `okBulk n`       — 200 `Bulk update successful for ${n} user(s).`;
* `okNewUser uid`  — 200 `Manager updated successfully.` plus `new_user_id`;
* `err400 m`       — 400 with message `m`;
* `err404 m`       — 404 with message `m`;
* `err500`         — 500 `Internal server error.`. -/
inductive Resp where
  | created (user_id : String)
  | okUsers (users : List UserRow)
  | okMessage (message : String)
  | okBulk (changes : Nat)
  | okNewUser (new_user_id : String)
  | err400 (message : String)
  | err404 (message : String)
  | err500
deriving DecidableEq

/-- The 400 message for an inactive or missing manager. -/
def managerMsg (v : JSValue) : String :=
  "Manager with ID " ++ jsDisplay v ++ " is not active or does not exist."

/-- `createUser` (controllers/userController.js lines 89-121).  The body
fields are parameters (the `checkMissingKeys` branch at lines 91-94 rejects
bodies where one of them is absent, upstream of everything modelled here).
`freshId` stands for the `uuidv4()` result and `now` for
`new Date().toISOString()`.  Validation runs before any store access; the
`INSERT` reports a constraint violation as a 500.  The row stores the raw
`full_name` and the normalized `mob_num` / `pan_num` from the validation
result (line 113). -/
def createUser (s : Store) (freshId now : String)
    (full_name mob_num pan_num manager_id : JSValue) : Except Unit (Resp × Store) :=
  match validateUser full_name mob_num pan_num with
  | .error e => .error e
  | .ok (.invalid msg) => .ok (.err400 msg, s)
  | .ok (.valid mob pan) =>
    match findManagerVal s manager_id with
    | none => .ok (.err400 (managerMsg manager_id), s)
    | some (m, mrow) =>
      if !mrow.is_active then .ok (.err400 (managerMsg manager_id), s)
      else
        let row : UserRow :=
          { user_id := freshId, full_name := strVal full_name, mob_num := mob,
            pan_num := pan, manager_id := m,
            created_at := now, updated_at := now, is_active := true }
        match insertUser s row with
        | .error _ => .ok (.err500, s)
        | .ok s2 => .ok (.created freshId, s2)

/-- A filter condition that is only added to the WHERE clause when the
request field is truthy (`if (user_id) { conditions.push(...) }`): an
absent or empty field constrains nothing. -/
def condOpt (f : Option String) (p : String → Bool) : Bool :=
  match f with
  | some v => if v == "" then true else p v
  | none => true

/-- `getUsers` (controllers/userController.js lines 123-150).  The base
query restricts to `is_active = 1`; each truthy filter adds a conjunct, and
`mob_num LIKE '%<digits>'` is a suffix match (the normalized pattern is all
digits, so `LIKE` has no wildcards and, on the digit strings stored in
`mob_num`, no case folding). -/
def getUsers (s : Store) (user_id mob_num manager_id : Option String) : Resp :=
  .okUsers (s.users.filter (fun r =>
    r.is_active
    && condOpt user_id (fun v => v == r.user_id)
    && condOpt mob_num (fun v => likeSuffix (normalizeMob v) r.mob_num)
    && condOpt manager_id (fun v => v == r.manager_id)))

/-- JS truthiness of an optional string request field. -/
def jsTruthyStr : Option String → Bool
  | some s => s != ""
  | none => false

/-- `deleteUser` (controllers/userController.js lines 152-176).  A `DELETE`
permanently removes every matching row, with no `is_active` condition; the
handler answers 404 exactly when `this.changes === 0`. -/
def deleteUser (s : Store) (user_id mob_num : Option String) : Resp × Store :=
  if !jsTruthyStr user_id && !jsTruthyStr mob_num then
    (.err400 "Missing required keys: user_id or mob_num.", s)
  else
    let pred : UserRow → Bool :=
      if jsTruthyStr user_id then fun r => user_id == some r.user_id
      else fun r => mob_num.map normalizeMob == some r.mob_num
    let changes := s.users.countP pred
    let s2 := { s with users := s.users.filter (fun r => !pred r) }
    if changes == 0 then (.err404 "User not found.", s2)
    else (.okMessage "User deleted successfully.", s2)

/-- `UPDATE users SET is_active = 0, updated_at = ? WHERE user_id = ?`
(controllers/userController.js line 237); its callback only reports driver
errors, and this statement can violate no constraint.  `uid` is
`user_ids[0]`; `none` (JS `undefined`, bound as NULL) matches no row. -/
def deactivateRun (s : Store) (uid : Option String) (now : String) : Store :=
  { s with users := s.users.map (fun r =>
      if uid == some r.user_id then { r with is_active := false, updated_at := now } else r) }

/-- `UPDATE users SET manager_id = ?, updated_at = ? WHERE user_id IN (...)`
(controllers/userController.js line 204): count of matched rows
(`this.changes`) and the updated table.  Only `manager_id`/`updated_at`
change, so no constraint can be violated. -/
def bulkRun (s : Store) (m now : String) (ids : List String) : Nat × Store :=
  (s.users.countP (fun r => ids.contains r.user_id),
   { s with users := s.users.map (fun r =>
       if ids.contains r.user_id then { r with manager_id := m, updated_at := now } else r) })

/-- Effect of one `SET <column> = ?` item on a row: the bound value is
stored through TEXT affinity, and NULL (`none`) violates the column's
`NOT NULL` constraint, failing the statement. -/
def applyUpd (r : UserRow) : String × JSValue → Option UserRow
  | ("full_name", v) => (textAffinity v).map (fun x => { r with full_name := x })
  | ("mob_num", v) => (textAffinity v).map (fun x => { r with mob_num := x })
  | ("pan_num", v) => (textAffinity v).map (fun x => { r with pan_num := x })
  | ("manager_id", v) => (textAffinity v).map (fun x => { r with manager_id := x })
  | ("updated_at", v) => (textAffinity v).map (fun x => { r with updated_at := x })
  | _ => some r

/-- Apply an `UPDATE ... SET <fields> WHERE <pred>` to the table rows:
returns the count of matched rows and the new rows, or `none` on a
`NOT NULL` violation. -/
def updateRows (fields : List (String × JSValue)) (pred : UserRow → Bool) :
    List UserRow → Option (Nat × List UserRow)
  | [] => some (0, [])
  | r :: rs =>
    match updateRows fields pred rs with
    | none => none
    | some (n, rs2) =>
      if pred r then
        match fields.foldlM applyUpd r with
        | none => none
        | some r2 => some (n + 1, r2 :: rs2)
      else some (n, r :: rs2)

/-- A whole `UPDATE` statement against the store: applies the fields to the
matching rows and commits only if the resulting table still satisfies its
UNIQUE constraints; otherwise the statement fails (`none`, surfaced as a
500 by the handlers). -/
def runUpdateWhere (s : Store) (pred : UserRow → Bool)
    (fields : List (String × JSValue)) : Option (Nat × Store) :=
  match updateRows fields pred s.users with
  | none => none
  | some (n, rows) =>
    if usersUnique rows then some (n, { s with users := rows }) else none

/-- The bulk-reassignment branch of `updateUser`
(controllers/userController.js lines 195-212): manager-active check, then
one `UPDATE ... WHERE user_id IN (...)`, reporting `this.changes`. -/
def updateBulkPath (s : Store) (now : String) (user_ids : List String) (mv : JSValue) :
    Resp × Store :=
  match findManagerVal s mv with
  | some (m, mrow) =>
    if mrow.is_active then
      let res := bulkRun s m now user_ids
      (.okBulk res.1, res.2)
    else (.err400 (managerMsg mv), s)
  | none => (.err400 (managerMsg mv), s)

/-- The history-preserving single-user manager branch of `updateUser`
(controllers/userController.js lines 220-255): manager-active check, fetch
of the active target row, then — inside `db.serialize`, with no
transaction — the deactivating `UPDATE` followed by the `INSERT` of the
replacement row.  If the `INSERT` fails, the deactivation has already been
committed and the handler answers 500. -/
def updateManagerPath (s : Store) (freshId now : String) (uid : Option String) (mv : JSValue) :
    Resp × Store :=
  match findManagerVal s mv with
  | some (m, mrow) =>
    if mrow.is_active then
      match s.users.find? (fun r => uid == some r.user_id && r.is_active) with
      | none => (.err404 "User not found or is inactive.", s)
      | some user =>
        let s2 := deactivateRun s uid now
        let newRow : UserRow :=
          { user_id := freshId, full_name := user.full_name, mob_num := user.mob_num,
            pan_num := user.pan_num, manager_id := m, created_at := now, updated_at := now,
            is_active := true }
        match insertUser s2 newRow with
        | .error _ => (.err500, s2)
        | .ok s3 => (.okNewUser freshId, s3)
    else (.err400 (managerMsg mv), s)
  | none => (.err400 (managerMsg mv), s)

/-- The single-user field-update branch of `updateUser`
(controllers/userController.js lines 256-284): `validateUpdate` is called a
second time (line 258), the `SET` list is built from `validatedData` in
iteration order plus `updated_at`, and 404 is returned when
`this.changes === 0`. -/
def updateFieldsPath (s : Store) (now : String) (uid : Option String)
    (update_data : List (String × JSValue)) : Except Unit (Resp × Store) :=
  match validateUpdate update_data with
  | .error e => .error e
  | .ok (.invalid msg) => .ok (.err400 msg, s)
  | .ok (.valid validatedData) =>
    if validatedData.length == 0 then .ok (.err400 "No valid fields to update.", s)
    else
      let fields := validatedData ++ [("updated_at", JSValue.vStr now)]
      match runUpdateWhere s (fun r => uid == some r.user_id) fields with
      | none => .ok (.err500, s)
      | some (changes, s2) =>
        if changes == 0 then .ok (.err404 "User not found.", s2)
        else .ok (.okMessage "User updated successfully.", s2)

/-- The `else` arm of `updateUser` (controllers/userController.js lines
213-285): reject multi-id requests, otherwise branch on the truthiness of
`update_data.manager_id` (passed in as `mv?`, `none` when the key is
absent). -/
def updateSingle (s : Store) (freshId now : String) (user_ids : List String)
    (update_data : List (String × JSValue)) (mv? : Option JSValue) :
    Except Unit (Resp × Store) :=
  if user_ids.length > 1 then
    .ok (.err400 "Individual updates can only be performed on a single user.", s)
  else
    match mv? with
    | some mv =>
      if jsTruthy mv then .ok (updateManagerPath s freshId now user_ids.head? mv)
      else updateFieldsPath s now user_ids.head? update_data
    | none => updateFieldsPath s now user_ids.head? update_data

/-- `updateUser` (controllers/userController.js lines 178-286).  `user_ids`
and `update_data` are parameters (the missing-keys branch at lines 180-184
rejects bodies lacking them, upstream of everything modelled here).  After
the invalid-keys check and `validateUpdate`, the bulk branch is taken
exactly when `update_data` has a single key, `update_data.manager_id` is
truthy, and more than one id was supplied (line 194). -/
def updateUser (s : Store) (freshId now : String) (user_ids : List String)
    (update_data : List (String × JSValue)) : Except Unit (Resp × Store) :=
  let invalidKeys := (update_data.map Prod.fst).filter (fun k => !validKeys.contains k)
  if invalidKeys.length > 0 then
    .ok (.err400 ("Invalid keys in update_data: " ++ String.intercalate ", " invalidKeys), s)
  else
    match validateUpdate update_data with
    | .error e => .error e
    | .ok (.invalid msg) => .ok (.err400 msg, s)
    | .ok (.valid _) =>
      match update_data.lookup "manager_id" with
      | some mv =>
        if update_data.length == 1 && jsTruthy mv && user_ids.length > 1 then
          .ok (updateBulkPath s now user_ids mv)
        else updateSingle s freshId now user_ids update_data (some mv)
      | none => updateSingle s freshId now user_ids update_data none

/-! ## Concrete stores used by the closed theorems -/

/-- One active user under manager `mgrA`; managers `mgrA`, `mgrB` active. -/
def c1_store : Store :=
  { users := [{ user_id := "u1", full_name := "Asha Rao", mob_num := "9876543210",
                pan_num := "ABCDE1234F", manager_id := "mgrA", created_at := "T0",
                updated_at := "T0", is_active := true }],
    managers := [ { manager_id := "mgrA", manager_name := "Manager A", is_active := true },
                  { manager_id := "mgrB", manager_name := "Manager B", is_active := true } ] }

/-- One active user `w1` under `mA`; managers `mA`, `mB` active. -/
def c2_store : Store :=
  { users := [{ user_id := "w1", full_name := "Ravi Iyer", mob_num := "9123456780",
                pan_num := "FGHIJ5678K", manager_id := "mA", created_at := "S0",
                updated_at := "S0", is_active := true }],
    managers := [ { manager_id := "mA", manager_name := "Manager A", is_active := true },
                  { manager_id := "mB", manager_name := "Manager B", is_active := true } ] }

/-- The store `c2_store` is left in after the failed reassignment: the only
user row deactivated, no replacement inserted. -/
def c2_after : Store :=
  { users := [{ user_id := "w1", full_name := "Ravi Iyer", mob_num := "9123456780",
                pan_num := "FGHIJ5678K", manager_id := "mA", created_at := "S0",
                updated_at := "S1", is_active := false }],
    managers := c2_store.managers }

/-- Two active users `a1`, `b1` under `m1`; managers `m1`, `m2` active. -/
def c3_store : Store :=
  { users := [{ user_id := "a1", full_name := "A", mob_num := "1111111111",
                pan_num := "AAAAA1111A", manager_id := "m1", created_at := "T0",
                updated_at := "T0", is_active := true },
              { user_id := "b1", full_name := "B", mob_num := "2222222222",
                pan_num := "BBBBB2222B", manager_id := "m1", created_at := "T0",
                updated_at := "T0", is_active := true }],
    managers := [ { manager_id := "m1", manager_name := "M1", is_active := true },
                  { manager_id := "m2", manager_name := "M2", is_active := true } ] }

/-- `c3_store` after the bulk reassignment of `a1` and `b1` to `m2`. -/
def c3_after : Store :=
  { users := [{ user_id := "a1", full_name := "A", mob_num := "1111111111",
                pan_num := "AAAAA1111A", manager_id := "m2", created_at := "T0",
                updated_at := "T1", is_active := true },
              { user_id := "b1", full_name := "B", mob_num := "2222222222",
                pan_num := "BBBBB2222B", manager_id := "m2", created_at := "T0",
                updated_at := "T1", is_active := true }],
    managers := c3_store.managers }

/-- An empty-users store with one active manager, for the C9 counterexample. -/
def c9_store : Store :=
  { users := [],
    managers := [ { manager_id := "m1", manager_name := "M1", is_active := true } ] }

/-- One active user `p1` under `q1`; managers `q1`, `q2` active. -/
def c3w_store : Store :=
  { users := [{ user_id := "p1", full_name := "P", mob_num := "5555555555",
                pan_num := "PQRST5555P", manager_id := "q1", created_at := "T0",
                updated_at := "T0", is_active := true }],
    managers := [ { manager_id := "q1", manager_name := "Q1", is_active := true },
                  { manager_id := "q2", manager_name := "Q2", is_active := true } ] }

/-- The row `p1` as it stands after deactivation. -/
def c3w_deact_row : UserRow :=
  { user_id := "p1", full_name := "P", mob_num := "5555555555",
    pan_num := "PQRST5555P", manager_id := "q1", created_at := "T0",
    updated_at := "T2", is_active := false }

/-- `c3w_store` after the failed single-user reassignment of `p1`. -/
def c3w_after : Store :=
  { users := [c3w_deact_row], managers := c3w_store.managers }

/-- One active user `a2` under `n1`; managers `n1`, `n2` active. -/
def c4w_store : Store :=
  { users := [{ user_id := "a2", full_name := "A2", mob_num := "6666666666",
                pan_num := "KLMNO6666K", manager_id := "n1", created_at := "T0",
                updated_at := "T0", is_active := true }],
    managers := [ { manager_id := "n1", manager_name := "N1", is_active := true },
                  { manager_id := "n2", manager_name := "N2", is_active := true } ] }

/-- `c4w_store` after the bulk reassignment over `["a2", "b2"]`. -/
def c4w_after : Store :=
  { users := [{ user_id := "a2", full_name := "A2", mob_num := "6666666666",
                pan_num := "KLMNO6666K", manager_id := "n2", created_at := "T0",
                updated_at := "T1", is_active := true }],
    managers := c4w_store.managers }

/-- An empty store, for the C5 witness. -/
def c5w_store : Store := { users := [], managers := [] }

/-- An empty-users store with one active manager `mX`, for the C6 witness. -/
def c6w_store : Store :=
  { users := [],
    managers := [ { manager_id := "mX", manager_name := "MX", is_active := true } ] }

/-- `c6w_store` after creating the C6 witness user. -/
def c6w_after : Store :=
  { users := [{ user_id := "u9", full_name := "John Doe", mob_num := "9876543210",
                pan_num := "ABCDE1234F", manager_id := "mX", created_at := "T5",
                updated_at := "T5", is_active := true }],
    managers := c6w_store.managers }

/-- An empty store, for the C7 witness. -/
def c7w_store : Store := { users := [], managers := [] }

/-- The single active row of `c8w_store`. -/
def c8w_row : UserRow :=
  { user_id := "g1", full_name := "G", mob_num := "7777777777",
    pan_num := "UVWXY7777U", manager_id := "mg", created_at := "T0",
    updated_at := "T0", is_active := true }

/-- One active user `g1`, for the C8 witness. -/
def c8w_store : Store := { users := [c8w_row], managers := [] }

/-- The single (inactive) row of `c10w_store`. -/
def c10w_row : UserRow :=
  { user_id := "h2", full_name := "H", mob_num := "4444444444",
    pan_num := "DDDDD4444D", manager_id := "mh", created_at := "T0",
    updated_at := "T0", is_active := false }

/-- One deactivated history row, for the C10 witness. -/
def c10w_store : Store := { users := [c10w_row], managers := [] }

/-! ## Claim theorems -/

/-- C1.  The claim says a single-target update carrying the id of an active
manager, against an active user, deactivates the old row and inserts one
new active row with the same full_name/mob_num/pan_num and returns the new
id as a success.  On the code this cannot happen: the `users` table
declares `mob_num` and `pan_num` `UNIQUE`, the deactivated old row is still
present, so the `INSERT` of the replacement row always violates the UNIQUE
constraint.  Evaluated at the failing input: user `u1` (active, manager
`mgrA`) reassigned to the active manager `mgrB` yields a 500, with the old
row deactivated (`updated_at` advanced, id unchanged) and no new row
inserted. -/
theorem c1_reassignment_insert_always_fails :
    updateUser c1_store "u2" "T1" ["u1"] [("manager_id", .vStr "mgrB")] =
      .ok (.err500,
        { users := [{ user_id := "u1", full_name := "Asha Rao", mob_num := "9876543210",
                      pan_num := "ABCDE1234F", manager_id := "mgrA", created_at := "T0",
                      updated_at := "T1", is_active := false }],
          managers := c1_store.managers }) := by
  decide

/-- C2.  The claim says a failure partway through the deactivate-then-insert
sequence leaves no partial state — in particular no user row deactivated
without its replacement inserted.  The code runs the two statements under
`db.serialize` with no transaction, and the `INSERT` step fails (UNIQUE
violation on `mob_num`/`pan_num`), so exactly the forbidden partial state
results: after reassigning the single active user `w1` to the active
manager `mB`, the response is a 500, the store holds no active row at all,
and the old row sits deactivated with its mobile number never re-inserted. -/
theorem c2_failed_insert_leaves_partial_state :
    updateUser c2_store "w2" "S1" ["w1"] [("manager_id", .vStr "mB")] = .ok (.err500, c2_after)
    ∧ c2_after.users.countP (fun r => r.is_active) = 0
    ∧ c2_after.users.countP (fun r => r.mob_num == "9123456780" && !r.is_active) = 1 := by
  decide

/-- C3 counterexample.  The claim says no update operation ever changes the
`manager_id` column of an existing user row in place.  The bulk branch
does exactly that: reassigning `["a1", "b1"]` to the active manager `m2`
rewrites `manager_id` on both existing rows (same `user_id`, no
deactivation, no new rows). -/
theorem c3_counterexample_bulk_changes_in_place :
    updateUser c3_store "fx" "T1" ["a1", "b1"] [("manager_id", .vStr "m2")] =
      .ok (.okBulk 2, c3_after)
    ∧ (c3_store.users.find? (fun r => r.user_id == "a1")).map (fun r => r.manager_id) = some "m1"
    ∧ (c3_after.users.find? (fun r => r.user_id == "a1")).map (fun r => r.manager_id) = some "m2"
    ∧ c3_after.users.length = c3_store.users.length := by
  decide

/-- C9 counterexample.  The claim says every request body in which
`mob_num` or `pan_num` is non-string makes the validator throw instead of
returning a failed validation result, so no 400 `ValidationError` is
produced.  But the checks run in order: with a whitespace-only `full_name`
and a numeric `mob_num`, `validateUser` returns the failed validation
result for `full_name` before ever touching `mob_num`, and `createUser`
answers with the ordinary 400. -/
theorem c9_counterexample_earlier_check_short_circuits :
    validateUser (.vStr "   ") (.vNum 5) (.vStr "x") =
      .ok (.invalid "Full name must not be empty.")
    ∧ createUser c9_store "f1" "N1" (.vStr "   ") (.vNum 5) (.vStr "x") (.vStr "m1") =
      .ok (.err400 "Full name must not be empty.", c9_store) := by
  decide

/-! ## Helper lemmas -/

lemma validateUpdateAux_keys_valid {vd : List (String × JSValue)} :
    ∀ (l acc : List (String × JSValue)),
      validateUpdateAux acc l = .ok (.valid vd) →
      ∀ k ∈ l.map Prod.fst, validKeys.contains k = true := by
  intro l
  induction l with
  | nil => intro acc h k hk; simp at hk
  | cons kv rest ih =>
    obtain ⟨key, v⟩ := kv
    intro acc h k hk
    simp only [List.map_cons, List.mem_cons] at hk
    unfold validateUpdateAux at h
    by_cases hc : validKeys.contains key = true
    · rcases hk with rfl | hk
      · exact hc
      · rw [hc] at h
        simp only [Bool.not_true, if_false, Bool.false_eq_true] at h
        split at h
        · split at h
          · simp at h
          · exact ih _ h k hk
        · split at h
          · split at h
            · split at h
              · simp at h
              · exact ih _ h k hk
            · simp at h
          · split at h
            · split at h
              · split at h
                · simp at h
                · exact ih _ h k hk
              · simp at h
            · exact ih _ h k hk
    · rw [Bool.not_eq_true] at hc
      rw [hc] at h
      simp at h

lemma mem_deactivateRun {s : Store} {uid : Option String} {now : String} {r2 : UserRow}
    (h : r2 ∈ (deactivateRun s uid now).users) :
    ∃ r ∈ s.users, r2.user_id = r.user_id ∧ r2.manager_id = r.manager_id := by
  unfold deactivateRun at h
  simp only [List.mem_map] at h
  obtain ⟨r, hr, heq⟩ := h
  refine ⟨r, hr, ?_, ?_⟩ <;> (rw [← heq]; split <;> rfl)

lemma dropWhile_forall_iff {p : Char → Bool} {l : List Char} :
    (∀ a ∈ l.dropWhile p, p a = true) ↔ (∀ a ∈ l, p a = true) := by
  constructor
  · intro h a ha
    rw [← List.takeWhile_append_dropWhile (p := p) (l := l)] at ha
    rcases List.mem_append.mp ha with h1 | h2
    · exact List.mem_takeWhile_imp h1
    · exact h a h2
  · intro h a ha
    exact h a ((List.dropWhile_sublist p).subset ha)

lemma jsTrim_eq_empty_iff {s : String} :
    (jsTrim s = "") ↔ s.data.all isJsWhitespace = true := by
  unfold jsTrim
  have hmk : ∀ l : List Char, (String.mk l = "") ↔ l = [] := by
    intro l
    constructor
    · intro h
      simpa using congrArg String.data h
    · intro h; rw [h]
  rw [hmk, List.reverse_eq_nil_iff, List.dropWhile_eq_nil_iff, List.all_eq_true]
  constructor
  · intro h a ha
    have h2 : ∀ a ∈ s.data.dropWhile isJsWhitespace, isJsWhitespace a = true := by
      intro a ha2
      exact h a (List.mem_reverse.mpr ha2)
    exact dropWhile_forall_iff.mp h2 a ha
  · intro h a ha
    exact h a ((List.dropWhile_sublist isJsWhitespace).subset (List.mem_reverse.mp ha))

lemma validateUser_str_eq (fn mn pn : String) :
    validateUser (.vStr fn) (.vStr mn) (.vStr pn) =
      if fn == "" || jsTrim fn == "" then .ok (.invalid "Full name must not be empty.")
      else if (normalizeMob mn).length != 10 then
        .ok (.invalid "Mobile number must be a valid 10-digit number.")
      else if !panTest (jsToUpper pn) then .ok (.invalid "PAN number is not a valid format.")
      else .ok (.valid (normalizeMob mn) (jsToUpper pn)) := by
  simp [validateUser, jsTruthy, isStringVal, strVal]

lemma condOpt_iff (f : Option String) (p : String → Bool) :
    condOpt f p = true ↔ (∀ v, f = some v → v ≠ "" → p v = true) := by
  cases f with
  | none => simp [condOpt]
  | some v =>
    by_cases hv : v = ""
    · subst hv
      simp [condOpt]
    · have hb : (v == "") = false := by simpa using hv
      simp [condOpt, hb, hv]

lemma deleteUser_by_id (s : Store) (uid : String) (h : uid ≠ "") :
    deleteUser s (some uid) none =
      ((if s.users.countP (fun r => some uid == some r.user_id) = 0
        then Resp.err404 "User not found."
        else Resp.okMessage "User deleted successfully."),
       { s with users := s.users.filter (fun r => !(some uid == some r.user_id)) }) := by
  have htr : jsTruthyStr (some uid) = true := by simpa [jsTruthyStr] using h
  unfold deleteUser
  rw [htr]
  by_cases hz : s.users.countP (fun r => some uid == some r.user_id) = 0
  · have hzb : (s.users.countP (fun r => some uid == some r.user_id) == 0) = true := by
      simpa using hz
    simp only [Bool.not_true, Bool.false_and, Bool.false_eq_true, if_false, if_true, hzb,
      if_pos hz]
  · have hzb : (s.users.countP (fun r => some uid == some r.user_id) == 0) = false := by
      simpa using hz
    simp only [Bool.not_true, Bool.false_and, Bool.false_eq_true, if_false, if_true, hzb,
      if_neg hz]

lemma deleteUser_by_mob (s : Store) (m : String) (h : m ≠ "") :
    deleteUser s none (some m) =
      ((if s.users.countP (fun r => (some m).map normalizeMob == some r.mob_num) = 0
        then Resp.err404 "User not found."
        else Resp.okMessage "User deleted successfully."),
       { s with
         users := s.users.filter (fun r => !((some m).map normalizeMob == some r.mob_num)) }) := by
  have htr : jsTruthyStr (some m) = true := by simpa [jsTruthyStr] using h
  unfold deleteUser
  rw [htr]
  by_cases hz : s.users.countP (fun r => (some m).map normalizeMob == some r.mob_num) = 0
  · have hzb :
        (s.users.countP (fun r => (some m).map normalizeMob == some r.mob_num) == 0) = true := by
      simpa using hz
    simp only [jsTruthyStr, Bool.not_true, Bool.not_false, Bool.true_and, Bool.and_false,
      Bool.false_eq_true, if_false, if_true, hzb, if_pos hz]
  · have hzb :
        (s.users.countP (fun r => (some m).map normalizeMob == some r.mob_num) == 0) = false := by
      simpa using hz
    simp only [jsTruthyStr, Bool.not_true, Bool.not_false, Bool.true_and, Bool.and_false,
      Bool.false_eq_true, if_false, if_true, hzb, if_neg hz]

/-! ## Remaining claim theorems and witnesses -/

/-- C3 (amended).  For a single-target update whose payload carries a truthy
`manager_id`, no existing row's `manager_id` is ever changed in place:
every row of the resulting store other than the freshly inserted one stems
from a row of the original store with the same `user_id` and the same
`manager_id`.  (The multi-target bulk branch, by contrast, does rewrite
`manager_id` in place — see the counterexample.) -/
theorem c3_single_target_manager_change_not_in_place (s : Store) (freshId now uid : String)
    (d : List (String × JSValue)) (mv : JSValue) (resp : Resp) (s2 : Store)
    (hmv : d.lookup "manager_id" = some mv) (htr : jsTruthy mv = true)
    (hrun : updateUser s freshId now [uid] d = .ok (resp, s2)) :
    ∀ r2 ∈ s2.users, r2.user_id ≠ freshId →
      ∃ r ∈ s.users, r2.user_id = r.user_id ∧ r2.manager_id = r.manager_id := by
  intro r2 hr2 hfresh
  unfold updateUser at hrun
  by_cases hinv : ((d.map Prod.fst).filter (fun k => !validKeys.contains k)).length > 0
  · rw [if_pos hinv] at hrun
    injection hrun with hrun
    obtain ⟨-, rfl⟩ := Prod.mk.injEq .. ▸ (Prod.ext_iff.mp hrun)
    exact ⟨r2, hr2, rfl, rfl⟩
  · rw [if_neg hinv] at hrun
    cases hv : validateUpdate d with
    | error e => rw [hv] at hrun; cases hrun
    | ok vres =>
      rw [hv] at hrun
      cases vres with
      | invalid msg =>
        injection hrun with hrun
        obtain ⟨-, rfl⟩ := Prod.ext_iff.mp hrun
        exact ⟨r2, hr2, rfl, rfl⟩
      | valid vdd =>
        rw [hmv] at hrun
        have hc3 : decide (([(uid : String)].length) > 1) = false := by simp
        simp only [hc3, Bool.and_false, Bool.false_eq_true, if_false] at hrun
        unfold updateSingle at hrun
        simp only [List.length_singleton, gt_iff_lt, Nat.lt_irrefl, if_false, htr,
          if_true, List.head?] at hrun
        unfold updateManagerPath at hrun
        cases hfm : findManagerVal s mv with
        | none =>
          rw [hfm] at hrun
          injection hrun with hrun
          obtain ⟨-, rfl⟩ := Prod.ext_iff.mp hrun
          exact ⟨r2, hr2, rfl, rfl⟩
        | some p =>
          obtain ⟨m, mrow⟩ := p
          rw [hfm] at hrun
          by_cases hma : mrow.is_active = true
          · simp only [hma, Bool.not_true, Bool.false_eq_true, if_false, ite_true,
              eq_self_iff_true] at hrun
            cases hfu : s.users.find? (fun r => some uid == some r.user_id && r.is_active) with
            | none =>
              simp only [hfu] at hrun
              injection hrun with hrun
              obtain ⟨-, rfl⟩ := Prod.ext_iff.mp hrun
              exact ⟨r2, hr2, rfl, rfl⟩
            | some user =>
              simp only [hfu] at hrun
              cases hins : insertUser (deactivateRun s (some uid) now)
                  { user_id := freshId, full_name := user.full_name, mob_num := user.mob_num,
                    pan_num := user.pan_num, manager_id := m, created_at := now,
                    updated_at := now, is_active := true } with
              | error e =>
                simp only [hins] at hrun
                injection hrun with hrun
                obtain ⟨-, rfl⟩ := Prod.ext_iff.mp hrun
                exact mem_deactivateRun hr2
              | ok s3 =>
                simp only [hins] at hrun
                injection hrun with hrun
                obtain ⟨-, rfl⟩ := Prod.ext_iff.mp hrun
                unfold insertUser at hins
                split at hins
                · injection hins with hins
                  rw [← hins] at hr2
                  simp only [List.mem_append, List.mem_singleton] at hr2
                  rcases hr2 with hr2 | rfl
                  · exact mem_deactivateRun hr2
                  · exact absurd rfl hfresh
                · cases hins
          · rw [Bool.not_eq_true] at hma
            simp only [hma, Bool.not_false, if_true] at hrun
            injection hrun with hrun
            obtain ⟨-, rfl⟩ := Prod.ext_iff.mp hrun
            exact ⟨r2, hr2, rfl, rfl⟩

/-- Witness for the amended C3: the deactivated row left by the (failing)
single-user reassignment of `p1` stems from an original row with the same
id and the same manager. -/
theorem c3_single_target_witness :
    ∃ r ∈ c3w_store.users,
      c3w_deact_row.user_id = r.user_id ∧ c3w_deact_row.manager_id = r.manager_id := by
  have h := c3_single_target_manager_change_not_in_place c3w_store "z9" "T2" "p1"
    [("manager_id", .vStr "q2")] (.vStr "q2") .err500 c3w_after (by decide) (by decide)
    (by decide)
  exact h c3w_deact_row (by decide) (by decide)

/-- C4.  A bulk update (more than one target id, payload exactly
`{manager_id: m}` with `m` the id of an active manager) sets `manager_id`
and `updated_at` on exactly the rows — active or not — whose `user_id` is
among the targets, leaves every other row unchanged, and reports success
with `this.changes`, the number of matched rows, with no error when that
count is 0. -/
theorem c4_bulk_reassignment_updates_exactly_targets (s : Store) (freshId now m : String)
    (user_ids : List String)
    (hlen : user_ids.length > 1) (hm : m ≠ "") (hact : managerActive s m = true) :
    updateUser s freshId now user_ids [("manager_id", .vStr m)] =
      .ok (.okBulk (s.users.countP (fun r => user_ids.contains r.user_id)),
           { s with users := s.users.map (fun r =>
               if user_ids.contains r.user_id then { r with manager_id := m, updated_at := now }
               else r) }) := by
  obtain ⟨mrow, hfind, hactive⟩ :
      ∃ mrow, s.managers.find? (fun r => r.manager_id == m) = some mrow ∧ mrow.is_active = true := by
    unfold managerActive at hact
    cases h : s.managers.find? (fun r => r.manager_id == m) with
    | none => rw [h] at hact; cases hact
    | some mrow => rw [h] at hact; exact ⟨mrow, rfl, hact⟩
  have hm2 : (m != "") = true := by simpa using hm
  have hl2 : decide (user_ids.length > 1) = true := by simpa using hlen
  unfold updateUser
  simp [validateUpdate, validateUpdateAux, validKeys, List.lookup, jsTruthy, hm2, hl2,
    updateBulkPath, findManagerVal, textAffinity, hfind, hactive, bulkRun]

/-- Witness for C4: bulk reassignment of `["a2", "b2"]` to `n2` in a store
where only `a2` exists succeeds with count 1. -/
theorem c4_bulk_witness :
    updateUser c4w_store "f" "T1" ["a2", "b2"] [("manager_id", .vStr "n2")] =
      .ok (.okBulk 1, c4w_after) := by
  have h := c4_bulk_reassignment_updates_exactly_targets c4w_store "f" "T1" "n2" ["a2", "b2"]
    (by decide) (by decide) (by decide)
  exact h.trans (by decide)

/-- C5.  A multi-id update whose (validated) payload is not exactly the
single field `manager_id` fails with the `UnsupportedBulkOperation` 400
(`Individual updates can only be performed on a single user.`) and leaves
the store untouched. -/
theorem c5_multi_id_non_manager_payload_rejected (s : Store) (freshId now : String)
    (user_ids : List String) (d vd : List (String × JSValue))
    (hlen : user_ids.length > 1)
    (hvalid : validateUpdate d = .ok (.valid vd))
    (hnot : d.map Prod.fst ≠ ["manager_id"]) :
    updateUser s freshId now user_ids d =
      .ok (.err400 "Individual updates can only be performed on a single user.", s) := by
  have hkeys : ∀ k ∈ d.map Prod.fst, validKeys.contains k = true :=
    validateUpdateAux_keys_valid d [] hvalid
  have hinv : (d.map Prod.fst).filter (fun k => !validKeys.contains k) = [] := by
    rw [List.filter_eq_nil_iff]
    intro k hk
    rw [hkeys k hk]
    simp
  have hl2 : decide (user_ids.length > 1) = true := by simpa using hlen
  unfold updateUser
  simp only [hinv, List.length_nil, gt_iff_lt, Nat.lt_irrefl, if_false, hvalid]
  cases hlk : d.lookup "manager_id" with
  | none => simp [updateSingle, hl2, hlen]
  | some mv =>
    have hlen1 : (d.length == 1) = false := by
      cases d with
      | nil => simp [List.lookup] at hlk
      | cons x xs =>
        cases xs with
        | nil =>
          obtain ⟨k, v⟩ := x
          exfalso
          apply hnot
          simp only [List.lookup] at hlk
          cases hkm : ("manager_id" == k) with
          | false => rw [hkm] at hlk; simp at hlk
          | true =>
            have hk : "manager_id" = k := by simpa using hkm
            simp [← hk]
        | cons y ys => simp [List.length_cons]
    simp [hlen1, updateSingle, hl2, hlen]

/-- Witness for C5: a two-id update with payload `{full_name: "New Name"}`
is rejected with the bulk-unsupported 400 and the store is unchanged. -/
theorem c5_multi_id_witness :
    updateUser c5w_store "f" "T1" ["x1", "x2"] [("full_name", .vStr "New Name")] =
      .ok (.err400 "Individual updates can only be performed on a single user.", c5w_store) :=
  c5_multi_id_non_manager_payload_rejected c5w_store "f" "T1" ["x1", "x2"]
    [("full_name", .vStr "New Name")] [("full_name", .vStr "New Name")]
    (by decide) (by decide) (by decide)

/-- C6.  For string inputs, create-validation fails exactly when the full
name is empty or whitespace-only, or the digit-stripped last-10 mobile
number does not have length 10, or the uppercased PAN fails the
`[A-Z]{5}[0-9]{4}[A-Z]` pattern; on success it returns the normalized
mobile and PAN, and a successful `createUser` appends exactly one row
storing those normalized values, never the raw input. -/
theorem c6_create_validation_and_normalized_storage (fn mn pn : String) :
    ((∃ msg, validateUser (.vStr fn) (.vStr mn) (.vStr pn) = .ok (.invalid msg)) ↔
      (fn.data.all isJsWhitespace = true ∨ (normalizeMob mn).length ≠ 10
        ∨ panTest (jsToUpper pn) = false))
    ∧ (fn.data.all isJsWhitespace = false → (normalizeMob mn).length = 10 →
        panTest (jsToUpper pn) = true →
        validateUser (.vStr fn) (.vStr mn) (.vStr pn) =
          .ok (.valid (normalizeMob mn) (jsToUpper pn)))
    ∧ (∀ (s s2 : Store) (freshId now uid : String) (mid : JSValue),
        createUser s freshId now (.vStr fn) (.vStr mn) (.vStr pn) mid =
          .ok (.created uid, s2) →
        ∃ m, s2.users = s.users ++
          [{ user_id := freshId, full_name := fn, mob_num := normalizeMob mn,
             pan_num := jsToUpper pn, manager_id := m, created_at := now,
             updated_at := now, is_active := true }]) := by
  have hempty : (fn == "" || jsTrim fn == "") = true ↔ fn.data.all isJsWhitespace = true := by
    constructor
    · intro h
      rcases Bool.or_eq_true_iff.mp h with h | h
      · have hfn : fn = "" := by simpa using h
        rw [← jsTrim_eq_empty_iff, hfn]
        rfl
      · exact jsTrim_eq_empty_iff.mp (by simpa using h)
    · intro h
      apply Bool.or_eq_true_iff.mpr
      right
      simpa using jsTrim_eq_empty_iff.mpr h
  have hvalid : ∀ mob pan,
      validateUser (.vStr fn) (.vStr mn) (.vStr pn) = .ok (.valid mob pan) →
      mob = normalizeMob mn ∧ pan = jsToUpper pn := by
    intro mob pan hv
    rw [validateUser_str_eq] at hv
    split at hv
    · simp at hv
    · split at hv
      · simp at hv
      · split at hv
        · simp at hv
        · injection hv with hv
          injection hv with h1 h2
          exact ⟨h1.symm, h2.symm⟩
  refine ⟨?_, ?_, ?_⟩
  · rw [validateUser_str_eq]
    by_cases h1 : fn.data.all isJsWhitespace = true
    · rw [if_pos (hempty.mpr h1)]
      simp [h1]
    · have h1b : (fn == "" || jsTrim fn == "") = false := by
        rw [← Bool.not_eq_true]
        intro hc
        exact h1 (hempty.mp hc)
      simp only [h1b, Bool.false_eq_true, if_false]
      by_cases h2 : (normalizeMob mn).length = 10
      · have h2b : ((normalizeMob mn).length != 10) = false := by simp [h2]
        simp only [h2b, Bool.false_eq_true, if_false]
        by_cases h3 : panTest (jsToUpper pn) = true
        · have h3b : (!panTest (jsToUpper pn)) = false := by simp [h3]
          simp only [h3b, Bool.false_eq_true, if_false]
          simp [h1, h2, h3]
        · have h3b : (!panTest (jsToUpper pn)) = true := by
            rw [Bool.not_eq_true] at h3
            simp [h3]
          simp only [h3b, if_true]
          rw [Bool.not_eq_true] at h3
          simp [h3]
      · have h2b : ((normalizeMob mn).length != 10) = true := by simp [h2]
        simp only [h2b, if_true]
        simp [h2]
  · intro h1 h2 h3
    rw [validateUser_str_eq]
    have h1b : (fn == "" || jsTrim fn == "") = false := by
      rw [← Bool.not_eq_true]
      intro hc
      rw [hempty.mp hc] at h1
      cases h1
    have h2b : ((normalizeMob mn).length != 10) = false := by simp [h2]
    have h3b : (!panTest (jsToUpper pn)) = false := by simp [h3]
    simp only [h1b, h2b, h3b, Bool.false_eq_true, if_false]
  · intro s s2 freshId now uid mid hc
    unfold createUser at hc
    cases hv : validateUser (.vStr fn) (.vStr mn) (.vStr pn) with
    | error e => rw [hv] at hc; cases hc
    | ok vres =>
      rw [hv] at hc
      cases vres with
      | invalid msg => simp at hc
      | valid mob pan =>
        obtain ⟨rfl, rfl⟩ := hvalid mob pan hv
        cases hfm : findManagerVal s mid with
        | none => simp only [hfm] at hc; simp at hc
        | some p =>
          obtain ⟨m, mrow⟩ := p
          simp only [hfm] at hc
          by_cases hma : mrow.is_active = true
          · simp only [hma, Bool.not_true, Bool.false_eq_true, if_false] at hc
            cases hins : insertUser s
                { user_id := freshId, full_name := strVal (.vStr fn),
                  mob_num := normalizeMob mn, pan_num := jsToUpper pn, manager_id := m,
                  created_at := now, updated_at := now, is_active := true } with
            | error e => simp only [hins] at hc; simp at hc
            | ok s3 =>
              simp only [hins] at hc
              injection hc with hc
              have hs2 : s2 = s3 := (congrArg Prod.snd hc).symm
              subst hs2
              unfold insertUser at hins
              split at hins
              · injection hins with hins
                refine ⟨m, ?_⟩
                rw [← hins]
                simp [strVal]
              · cases hins
          · rw [Bool.not_eq_true] at hma
            simp only [hma, Bool.not_false, if_true] at hc
            simp at hc

/-- Witness for C6: a messy but valid payload is normalized, and the
created row stores the normalized mobile number and uppercased PAN. -/
theorem c6_validation_witness :
    validateUser (.vStr "John Doe") (.vStr "+91-98765-43210") (.vStr "abcde1234f") =
      .ok (.valid (normalizeMob "+91-98765-43210") (jsToUpper "abcde1234f"))
    ∧ ∃ m, c6w_after.users = c6w_store.users ++
        [{ user_id := "u9", full_name := "John Doe",
           mob_num := normalizeMob "+91-98765-43210", pan_num := jsToUpper "abcde1234f",
           manager_id := m, created_at := "T5", updated_at := "T5", is_active := true }] := by
  have h := c6_create_validation_and_normalized_storage "John Doe" "+91-98765-43210" "abcde1234f"
  exact ⟨h.2.1 (by decide) (by decide) (by decide),
    h.2.2 c6w_store c6w_after "u9" "T5" "u9" (.vStr "mX") (by decide)⟩

/-- C7.  `deleteUser` answers the missing-keys 400 exactly when neither
`user_id` nor `mob_num` is truthy; by id it deletes the rows matching the
id, by mobile number it first normalizes (strip non-digits, keep last 10)
and matches on the normalized value; 404 (`User not found.`) is returned
exactly when zero rows are deleted, success otherwise. -/
theorem c7_delete_requires_key_and_normalizes (s : Store) (uidO mobO : Option String) :
    (jsTruthyStr uidO = false → jsTruthyStr mobO = false →
      deleteUser s uidO mobO = (.err400 "Missing required keys: user_id or mob_num.", s))
    ∧ (jsTruthyStr uidO = true →
        (((deleteUser s uidO mobO).1 = .err404 "User not found.") ↔
          s.users.countP (fun r => uidO == some r.user_id) = 0)
        ∧ ((deleteUser s uidO mobO).2).users =
            s.users.filter (fun r => !(uidO == some r.user_id))
        ∧ (s.users.countP (fun r => uidO == some r.user_id) ≠ 0 →
            (deleteUser s uidO mobO).1 = .okMessage "User deleted successfully."))
    ∧ (jsTruthyStr uidO = false → jsTruthyStr mobO = true →
        (((deleteUser s uidO mobO).1 = .err404 "User not found.") ↔
          s.users.countP (fun r => mobO.map normalizeMob == some r.mob_num) = 0)
        ∧ ((deleteUser s uidO mobO).2).users =
            s.users.filter (fun r => !(mobO.map normalizeMob == some r.mob_num))
        ∧ (s.users.countP (fun r => mobO.map normalizeMob == some r.mob_num) ≠ 0 →
            (deleteUser s uidO mobO).1 = .okMessage "User deleted successfully.")) := by
  refine ⟨?_, ?_, ?_⟩
  · intro hu hm
    simp [deleteUser, hu, hm]
  · intro hu
    unfold deleteUser
    simp only [hu, Bool.not_true, Bool.false_and, Bool.false_eq_true, if_false, if_true]
    by_cases hz : s.users.countP (fun r => uidO == some r.user_id) = 0
    · simp [hz]
    · have hzb : (s.users.countP (fun r => uidO == some r.user_id) == 0) = false := by
        simpa using hz
      simp [hzb, hz]
  · intro hu hm
    unfold deleteUser
    simp only [hu, hm, Bool.not_true, Bool.not_false, Bool.true_and, Bool.and_false,
      Bool.false_eq_true, if_false, if_true]
    by_cases hz : s.users.countP (fun r => mobO.map normalizeMob == some r.mob_num) = 0
    · simp [hz]
    · have hzb :
          (s.users.countP (fun r => mobO.map normalizeMob == some r.mob_num) == 0) = false := by
        simpa using hz
      simp [hzb, hz]

/-- Witness for C7: no key at all gives the 400; deleting a nonexistent id
gives the 404. -/
theorem c7_delete_witness :
    deleteUser c7w_store none none =
      (.err400 "Missing required keys: user_id or mob_num.", c7w_store)
    ∧ (deleteUser c7w_store (some "nope") none).1 = .err404 "User not found." := by
  have h1 := c7_delete_requires_key_and_normalizes c7w_store none none
  have h2 := c7_delete_requires_key_and_normalizes c7w_store (some "nope") none
  exact ⟨h1.1 (by decide) (by decide), ((h2.2.1 (by decide)).1).mpr (by decide)⟩

/-- C8.  `getUsers` returns only active rows: with no filters, exactly the
active rows; with filters, exactly the active rows where every truthy
filter matches — `user_id` and `manager_id` exactly, `mob_num` as a suffix
of the stored value after normalization. -/
theorem c8_list_returns_active_matching (s : Store) (uidO mobO mgrO : Option String) :
    (getUsers s none none none = .okUsers (s.users.filter (fun r => r.is_active)))
    ∧ (∀ rows, getUsers s uidO mobO mgrO = .okUsers rows →
        ∀ r, r ∈ rows ↔ (r ∈ s.users ∧ r.is_active = true
          ∧ (∀ v, uidO = some v → v ≠ "" → (v == r.user_id) = true)
          ∧ (∀ v, mobO = some v → v ≠ "" → likeSuffix (normalizeMob v) r.mob_num = true)
          ∧ (∀ v, mgrO = some v → v ≠ "" → (v == r.manager_id) = true))) := by
  constructor
  · simp [getUsers, condOpt]
  · intro rows h r
    injection h with h
    subst h
    rw [List.mem_filter]
    simp only [Bool.and_eq_true, condOpt_iff]
    tauto

/-- Witness for C8: filtering by the id of the single active row returns
exactly that row. -/
theorem c8_list_witness :
    getUsers c8w_store (some "g1") none none = .okUsers [c8w_row]
    ∧ c8w_row ∈ [c8w_row] := by
  refine ⟨by decide, ?_⟩
  have h := (c8_list_returns_active_matching c8w_store (some "g1") none none).2
    [c8w_row] (by decide) c8w_row
  exact h.mpr ⟨by decide, by decide,
    (fun v hv hne => by cases hv; decide),
    (fun v hv hne => by cases hv),
    (fun v hv hne => by cases hv)⟩

/-- C9 (amended).  When validation actually reaches a non-string `mob_num`
or `pan_num` (the earlier checks pass), `validateUser` / `validateUpdate`
throw a TypeError (`.replace` / `.toUpperCase` on a non-string) instead of
returning a failed validation result, and `createUser` / `updateUser`
terminate with that exception rather than the 400 `ValidationError`
response. -/
theorem c9_nonstring_field_throws_when_reached (fn : String) (mn pn mid : JSValue) (s : Store)
    (freshId now : String) (user_ids : List String) :
    (jsTrim fn ≠ "" → isStringVal mn = false →
       validateUser (.vStr fn) mn pn = .error ()
       ∧ createUser s freshId now (.vStr fn) mn pn mid = .error ())
    ∧ (∀ mstr : String, (normalizeMob mstr).length = 10 → isStringVal pn = false →
       jsTrim fn ≠ "" →
       validateUser (.vStr fn) (.vStr mstr) pn = .error ()
       ∧ createUser s freshId now (.vStr fn) (.vStr mstr) pn mid = .error ())
    ∧ (isStringVal mn = false →
       validateUpdate [("mob_num", mn)] = .error ()
       ∧ updateUser s freshId now user_ids [("mob_num", mn)] = .error ())
    ∧ (isStringVal pn = false →
       validateUpdate [("pan_num", pn)] = .error ()
       ∧ updateUser s freshId now user_ids [("pan_num", pn)] = .error ()) := by
  refine ⟨?_, ?_, ?_, ?_⟩
  · intro h hmn
    have hp : fn ≠ "" := by
      intro hc
      exact h (by rw [hc]; rfl)
    have h2 : (jsTrim fn == "") = false := by simpa using h
    have hval : validateUser (.vStr fn) mn pn = .error () := by
      cases mn with
      | vStr x => simp [isStringVal] at hmn
      | vNum n => simp [validateUser, jsTruthy, isStringVal, strVal, hp, h2]
      | vBool b => simp [validateUser, jsTruthy, isStringVal, strVal, hp, h2]
      | vNull => simp [validateUser, jsTruthy, isStringVal, strVal, hp, h2]
    refine ⟨hval, ?_⟩
    unfold createUser
    rw [hval]
  · intro mstr hlen hpn h
    have hp : fn ≠ "" := by
      intro hc
      exact h (by rw [hc]; rfl)
    have h2 : (jsTrim fn == "") = false := by simpa using h
    have h3 : ((normalizeMob mstr).length != 10) = false := by simp [hlen]
    have hval : validateUser (.vStr fn) (.vStr mstr) pn = .error () := by
      cases pn with
      | vStr x => simp [isStringVal] at hpn
      | vNum n => simp [validateUser, jsTruthy, isStringVal, strVal, hp, h2, h3]
      | vBool b => simp [validateUser, jsTruthy, isStringVal, strVal, hp, h2, h3]
      | vNull => simp [validateUser, jsTruthy, isStringVal, strVal, hp, h2, h3]
    refine ⟨hval, ?_⟩
    unfold createUser
    rw [hval]
  · intro hmn
    have hval : validateUpdate [("mob_num", mn)] = .error () := by
      cases mn with
      | vStr x => simp [isStringVal] at hmn
      | vNum n => rfl
      | vBool b => rfl
      | vNull => rfl
    refine ⟨hval, ?_⟩
    unfold updateUser
    rw [hval]
    rfl
  · intro hpn
    have hval : validateUpdate [("pan_num", pn)] = .error () := by
      cases pn with
      | vStr x => simp [isStringVal] at hpn
      | vNum n => rfl
      | vBool b => rfl
      | vNull => rfl
    refine ⟨hval, ?_⟩
    unfold updateUser
    rw [hval]
    rfl

/-- Witness for the amended C9: a numeric mobile number (with a valid full
name) and a numeric PAN make the validators and both handlers throw. -/
theorem c9_nonstring_witness :
    validateUser (.vStr "Jo") (.vNum 7) (.vNum 3) = .error ()
    ∧ validateUpdate [("pan_num", .vNum 3)] = .error ()
    ∧ updateUser c9_store "f" "T" ["u"] [("mob_num", .vNum 7)] = .error () := by
  have h := c9_nonstring_field_throws_when_reached "Jo" (.vNum 7) (.vNum 3) (.vStr "m")
    c9_store "f" "T" ["u"]
  exact ⟨(h.1 (by decide) (by decide)).1, (h.2.2.2 (by decide)).1, (h.2.2.1 (by decide)).2⟩

/-- C10.  `DELETE FROM users` carries no `is_active` condition: any stored
row, active or deactivated, is permanently removed by a delete request
carrying its `user_id`, or a `mob_num` that normalizes to its stored
mobile number. -/
theorem c10_delete_ignores_active_flag (s : Store) (r : UserRow) (hr : r ∈ s.users) :
    (r.user_id ≠ "" →
       (deleteUser s (some r.user_id) none).1 = .okMessage "User deleted successfully."
       ∧ ∀ r2 ∈ ((deleteUser s (some r.user_id) none).2).users, r2.user_id ≠ r.user_id)
    ∧ (∀ m : String, m ≠ "" → normalizeMob m = r.mob_num →
       (deleteUser s none (some m)).1 = .okMessage "User deleted successfully."
       ∧ ∀ r2 ∈ ((deleteUser s none (some m)).2).users, r2.mob_num ≠ r.mob_num) := by
  constructor
  · intro h
    rw [deleteUser_by_id s r.user_id h]
    have hcz : s.users.countP (fun r2 => some r.user_id == some r2.user_id) ≠ 0 := by
      have hpos : 0 < s.users.countP (fun r2 => some r.user_id == some r2.user_id) := by
        rw [List.countP_pos_iff]
        exact ⟨r, hr, by simp⟩
      omega
    refine ⟨by rw [if_neg hcz], ?_⟩
    intro r2 hr2
    rw [List.mem_filter] at hr2
    intro heq
    have h2 := hr2.2
    simp [heq] at h2
  · intro m hm hnorm
    rw [deleteUser_by_mob s m hm]
    have hcz : s.users.countP (fun r2 => (some m).map normalizeMob == some r2.mob_num) ≠ 0 := by
      have hpos : 0 < s.users.countP (fun r2 => (some m).map normalizeMob == some r2.mob_num) := by
        rw [List.countP_pos_iff]
        exact ⟨r, hr, by simp [hnorm]⟩
      omega
    refine ⟨by rw [if_neg hcz], ?_⟩
    intro r2 hr2
    rw [List.mem_filter] at hr2
    intro hmm
    have h2 := hr2.2
    simp [hmm, hnorm] at h2

/-- Witness for C10: the deactivated history row `h2` is permanently
removed both by id and by a raw mobile number that normalizes to its
stored one. -/
theorem c10_delete_witness :
    (deleteUser c10w_store (some c10w_row.user_id) none).1 =
      .okMessage "User deleted successfully."
    ∧ (deleteUser c10w_store none (some "+91 44 44 44 44 44")).1 =
      .okMessage "User deleted successfully." := by
  have h := c10_delete_ignores_active_flag c10w_store c10w_row (by decide)
  exact ⟨(h.1 (by decide)).1, (h.2 "+91 44 44 44 44 44" (by decide) (by decide)).1⟩

end UserApi
